import Mathlib

/-!
Shallow embedding of `src/notebooks/helper_functions.py`.

The file defines four notebook helper functions over an abstract interface
`Lib` that stands for the external libraries (sklearn, pandas, numpy,
matplotlib).  Library calls that can raise return `Except String`; the
NumPy global random state is threaded explicitly as a `Nat`, so that
`np.random.seed(100)` is `lib.seed 100` discarding the incoming state.
Printing and plotting are modelled as lists of strings collected in each
function's output record.
-/

namespace HelperFunctions

/-- The `RepeatedKFold(n_splits, n_repeats, random_state)` splitter object. -/
structure Splitter where
  n_splits : Nat
  n_repeats : Nat
  random_state : Nat
  deriving DecidableEq, Repr

/-- Abstract interface to the external library calls used by
`helper_functions.py`.  `cross_val_score` takes and returns the NumPy
global random state (first `Nat` argument / second component); the
variant with an explicit `Splitter` carries its own `random_state` and so
does not touch the global state. `S` is the numeric score type. -/
structure Lib (M F L S : Type) where
  seed : Nat → Nat
  cross_val_score : Nat → M → F → L → Nat → String → Except String (List S × Nat)
  cross_val_score_split : M → F → L → Splitter → String → Except String (List S)
  learning_curve : M → F → L → Nat → String → Nat → Except String (List S × List (List S) × List (List S))
  mean : List S → S
  std : List S → S
  round3 : S → S
  fmt2 : S → String
  fmt_metric_block : List (String × S) → String

/-- The `metrics_list` of `metric_evaluation` (line 40). -/
def metrics_list : List String :=
  ["accuracy", "precision_weighted", "recall_weighted", "f1_weighted", "roc_auc"]

/-- Row/column labelled score table standing for the returned
`pd.DataFrame`. `data` holds one list of scores per row. -/
structure DataFrame (S : Type) where
  rowIndex : List String
  columns : List String
  data : List (List S)
  deriving DecidableEq, Repr

/-- Output of `metric_evaluation`: the returned DataFrame, the lines it
printed, the plots it produced, and the NumPy global random state after
the call. -/
structure MEOut (S : Type) where
  df : DataFrame S
  printed : List String
  plots : List String
  rng : Nat
  deriving DecidableEq, Repr

/-- The `for metric in metrics_list` loop of `metric_evaluation`
(lines 43-45): one `cross_val_score(model, X, y, cv=cv, scoring=metric)`
call per metric, threading the global random state, keeping insertion
order as `performance_dict` does. -/
def runMetrics (lib : Lib M F L S) (model : M) (X : F) (y : L) (cv : Nat) :
    List String → Nat → Except String (List (String × List S) × Nat)
  | [], r => .ok ([], r)
  | m :: ms, r =>
    match lib.cross_val_score r model X y cv m with
    | .error e => .error e
    | .ok (s, r') =>
      match runMetrics lib model X y cv ms r' with
      | .error e => .error e
      | .ok (rest, r'') => .ok ((m, s) :: rest, r'')

/-- Models the `pd.DataFrame(dict_of_arrays)` requirement that all arrays
have the same length. -/
def allSameLength : List (List α) → Bool
  | [] => true
  | l :: rest => rest.all (fun l2 => l2.length == l.length)

/-- Embeds `metric_evaluation` (lines 10-88).  Seeds the global random state to
100, scores the five metrics by cross-validation, builds the transposed
rounded score table with columns `Cross Val 1 .. Cross Val n` where `n`
is the length of the LAST metric's score array (the `metric_score`
variable after the loop), optionally plots a bar chart, optionally prints
the averaged scores, always prints the completion line, and returns the
DataFrame. -/
def metric_evaluation (lib : Lib M F L S) (model : M) (X : F) (y : L)
    (cv : Nat) (model_name : String) (print_results plot_results : Bool)
    (_rng0 : Nat) : Except String (MEOut S) :=
  match runMetrics lib model X y cv metrics_list (lib.seed 100) with
  | .error e => .error e
  | .ok (pairs, r1) =>
    if allSameLength (pairs.map (fun p => p.2)) then
      let rounded := pairs.map (fun p => (p.1, p.2.map lib.round3))
      let lastLen := ((pairs.map (fun p => p.2)).getLastD []).length
      let df : DataFrame S :=
        { rowIndex := rounded.map (fun p => p.1)
          columns := (List.range lastLen).map (fun n => "Cross Val " ++ toString (n + 1))
          data := rounded.map (fun p => p.2) }
      let plots :=
        if plot_results then
          ["bar: Cross Validation scores of the " ++ model_name]
        else []
      let printed :=
        (if print_results then
          ["######### " ++ model_name ++ ": Averaged Cross Validated Scores ##########",
           lib.fmt_metric_block (rounded.map (fun p => (p.1, lib.mean p.2)))]
         else [])
        ++ [model_name ++ " Model evaluation complete."]
      .ok { df := df, printed := printed, plots := plots, rng := r1 }
    else
      .error "ValueError: All arrays must be of the same length"

/-- Output of `plot_learning_curves`: the curve data and the plots. -/
structure LCOut (S : Type) where
  train_sizes : List S
  train_mean : List S
  train_std : List S
  test_mean : List S
  test_std : List S
  plots : List String
  deriving DecidableEq, Repr

/-- Embeds `plot_learning_curves` (lines 91-124): one `learning_curve` call with
`train_sizes=np.linspace(0.1,1.0,10)` (10 sizes), `cv=10`,
`scoring='recall_weighted'`, `random_state=100`, then per-row (axis=1)
means and standard deviations, then the plot. -/
def plot_learning_curves (lib : Lib M F L S) (model : M) (X : F) (y : L) :
    Except String (LCOut S) :=
  match lib.learning_curve model X y 10 "recall_weighted" 100 with
  | .error e => .error e
  | .ok (train_sizes, train_scores, test_scores) =>
    .ok { train_sizes := train_sizes
          train_mean := train_scores.map lib.mean
          train_std := train_scores.map lib.std
          test_mean := test_scores.map lib.mean
          test_std := test_scores.map lib.std
          plots := ["learning curve: training recall and validation recall"] }

/-- Python `str.replace` with `'_'` replaced by `' '`. -/
def replaceUnderscores (s : String) : String :=
  String.mk (s.data.map (fun c => if c = '_' then ' ' else c))

/-- Python `str.capitalize`: first character upper-cased, the rest
lower-cased. -/
def pyCapitalize (s : String) : String :=
  match s.data with
  | [] => ""
  | c :: cs => String.mk (Char.toUpper c :: cs.map Char.toLower)

/-- Output of `plot_box_plot`.  `models` is the final value of the list
object bound to the `models` parameter (the source appends to it in
place when it is empty, line 140-141); `scoring_used` is the value of the
`scoring` variable actually passed to `cross_val_score`. -/
structure PBOut (M S : Type) where
  models : List (String × M)
  names : List String
  results : List (List S)
  scoring_used : String
  printed : List String
  plots : List String
  deriving DecidableEq, Repr

/-- The `for name, model in models` loop of `plot_box_plot`
(lines 148-153): `RepeatedKFold(n_splits=10, n_repeats=5,
random_state=100)` then one `cross_val_score` per model, accumulating
`results`, `names` and the printed mean-and-std lines. -/
def boxLoop (lib : Lib M F L S) (X : F) (y : L) (scoring : String) :
    List (String × M) → Except String (List (List S) × List String × List String)
  | [] => .ok ([], [], [])
  | (name, model) :: rest =>
    match lib.cross_val_score_split model X y ⟨10, 5, 100⟩ scoring with
    | .error e => .error e
    | .ok cv_results =>
      match boxLoop lib X y scoring rest with
      | .error e => .error e
      | .ok (rs, ns, ps) =>
        .ok (cv_results :: rs, name :: ns,
             (name ++ " " ++ lib.fmt2 (lib.mean cv_results) ++ " +/- "
               ++ lib.fmt2 (lib.std cv_results)) :: ps)

/-- Models `if not models: models.append((model_name, model))`
(lines 140-141): the value of the (in-place mutated) `models` list after the call. -/
def modelsAfterCall (model : M) (model_name : String)
    (models : List (String × M)) : List (String × M) :=
  if models.isEmpty then models ++ [(model_name, model)] else models

/-- Embeds `plot_box_plot` (lines 127-164).  Appends `(model_name, model)` to an
empty `models` list, then REBINDS `scoring` to `'recall_weighted'`
(line 145) regardless of the argument, prints the heading, runs the
loop, prints a blank line and draws the box plot. -/
def plot_box_plot (lib : Lib M F L S) (model : M) (X : F) (y : L)
    (model_name : String) (_scoring : String) (models : List (String × M)) :
    Except String (PBOut M S) :=
  match boxLoop lib X y "recall_weighted" (modelsAfterCall model model_name models) with
  | .error e => .error e
  | .ok (rs, ns, ps) =>
    .ok { models := modelsAfterCall model model_name models
          names := ns
          results := rs
          scoring_used := "recall_weighted"
          printed := ("Model Evaluation - "
              ++ pyCapitalize (replaceUnderscores "recall_weighted")) :: ps ++ ["\n"]
          plots := ["boxplot: Boxplot View; ylabel "
              ++ pyCapitalize (replaceUnderscores "recall_weighted") ++ "; xlabel Model"] }

/-- Output of `full_model_evaluation`: its own printed heading and the
outputs of the three helper calls, in call order. -/
structure FMOut (M S : Type) where
  heading : String
  lc : LCOut S
  pb : PBOut M S
  me : MEOut S
  deriving DecidableEq, Repr

/-- Embeds `full_model_evaluation` (lines 167-186): defaults `model_name` to
`"Decision Tree"`, prints the learning-curve heading, then calls
`plot_learning_curves(model, X, y)`,
`plot_box_plot(model, X, y, model_name)` (default `scoring` and
`models=[]`) and `metric_evaluation(model, X, y)` (defaults `cv=5`,
both flags true), in that order. -/
def full_model_evaluation (lib : Lib M F L S) (model : M) (X : F) (y : L)
    (model_name : Option String) (rng0 : Nat) : Except String (FMOut M S) :=
  let name := model_name.getD "Decision Tree"
  match plot_learning_curves lib model X y with
  | .error e => .error e
  | .ok lc =>
    match plot_box_plot lib model X y name "recall_weighted" [] with
    | .error e => .error e
    | .ok pb =>
      match metric_evaluation lib model X y 5 name true true rng0 with
      | .error e => .error e
      | .ok me =>
        .ok { heading := name ++ " Learning Curve", lc := lc, pb := pb, me := me }

/-- A concrete instantiation of the library interface, used to evaluate
the embedding on closed inputs: every model is `Unit`, scores are `Int`,
`cross_val_score` with fold count `cv` returns `cv` zero scores and
advances the global state. -/
def toyLib : Lib Unit Unit Unit Int :=
  { seed := fun n => n
    cross_val_score := fun r _ _ _ cv _ => .ok (List.replicate cv 0, r + 1)
    cross_val_score_split := fun _ _ _ sp _ => .ok (List.replicate (sp.n_splits * sp.n_repeats) 0)
    learning_curve := fun _ _ _ _ _ _ => .ok ([1], [[0]], [[0]])
    mean := fun _ => 0
    std := fun _ => 0
    round3 := fun x => x
    fmt2 := fun _ => "0.00"
    fmt_metric_block := fun _ => "scores" }

/-- A library instantiation in which every fallible call raises. -/
def failLib : Lib Unit Unit Unit Int :=
  { seed := fun n => n
    cross_val_score := fun _ _ _ _ _ _ => .error "boom"
    cross_val_score_split := fun _ _ _ _ _ => .error "boom"
    learning_curve := fun _ _ _ _ _ _ => .error "boom"
    mean := fun _ => 0
    std := fun _ => 0
    round3 := fun x => x
    fmt2 := fun _ => "0.00"
    fmt_metric_block := fun _ => "scores" }

/-- A library instantiation in which only the `roc_auc` scorer raises:
the first four metric calls of `metric_evaluation` succeed and the fifth
fails. -/
def rocFailLib : Lib Unit Unit Unit Int :=
  { toyLib with cross_val_score := fun r _ _ _ cv m =>
      if m == "roc_auc" then .error "boom" else .ok (List.replicate cv 0, r + 1) }

/-- A library instantiation over `Bool` models in which only the model
`true` fails splitter-based cross-validation: a model list whose second
entry is `true` fails at the second loop iteration of `plot_box_plot`. -/
def boolFailLib : Lib Bool Unit Unit Int :=
  { seed := fun n => n
    cross_val_score := fun r _ _ _ cv _ => .ok (List.replicate cv 0, r + 1)
    cross_val_score_split := fun mdl _ _ sp _ =>
      if mdl then .error "boom" else .ok (List.replicate (sp.n_splits * sp.n_repeats) 0)
    learning_curve := fun _ _ _ _ _ _ => .ok ([1], [[0]], [[0]])
    mean := fun _ => 0
    std := fun _ => 0
    round3 := fun x => x
    fmt2 := fun _ => "0.00"
    fmt_metric_block := fun _ => "scores" }

/-- A library instantiation in which only splitter-based
cross-validation raises: `full_model_evaluation` fails at its
`plot_box_plot` stage, after `plot_learning_curves` succeeded. -/
def splitFailLib : Lib Unit Unit Unit Int :=
  { toyLib with cross_val_score_split := fun _ _ _ _ _ => .error "boom" }

/-- A library instantiation in which only integer-cv cross-validation
raises: `full_model_evaluation` fails at its `metric_evaluation` stage,
after the first two stages succeeded. -/
def cvsFailLib : Lib Unit Unit Unit Int :=
  { toyLib with cross_val_score := fun _ _ _ _ _ _ => .error "boom" }

/-- The record `plot_learning_curves toyLib () () ()` evaluates to. -/
def lcVal : LCOut Int :=
  { train_sizes := [1]
    train_mean := [0]
    train_std := [0]
    test_mean := [0]
    test_std := [0]
    plots := ["learning curve: training recall and validation recall"] }

/-- The record `plot_box_plot toyLib () () () "M" "recall_weighted" []`
evaluates to. -/
def pbVal : PBOut Unit Int :=
  { models := [("M", ())]
    names := ["M"]
    results := [List.replicate 50 0]
    scoring_used := "recall_weighted"
    printed := ["Model Evaluation - Recall weighted", "M 0.00 +/- 0.00", "\n"]
    plots := ["boxplot: Boxplot View; ylabel Recall weighted; xlabel Model"] }

/-- The record `metric_evaluation toyLib () () () 5 "M" true true 0`
evaluates to. -/
def meVal : MEOut Int :=
  { df := { rowIndex := metrics_list
            columns := ["Cross Val 1", "Cross Val 2", "Cross Val 3", "Cross Val 4", "Cross Val 5"]
            data := List.replicate 5 (List.replicate 5 0) }
    printed := ["######### M: Averaged Cross Validated Scores ##########", "scores",
                "M Model evaluation complete."]
    plots := ["bar: Cross Validation scores of the M"]
    rng := 105 }

/-- Applying the empty-list default a second time changes nothing: the
list is non-empty after the first call. -/
theorem modelsAfterCall_idem (model : M) (mn : String) (models : List (String × M)) :
    modelsAfterCall model mn (modelsAfterCall model mn models)
      = modelsAfterCall model mn models := by
  by_cases h : models.isEmpty <;>
    simp [modelsAfterCall, h, List.isEmpty_iff.mp, List.isEmpty_iff]

/-- The metric loop keeps the metric names, in order, as the first
components of the accumulated pairs. -/
theorem runMetrics_map_fst (lib : Lib M F L S) (model : M) (X : F) (y : L) (cv : Nat) :
    ∀ (ms : List String) (r : Nat) (pairs : List (String × List S)) (r' : Nat),
      runMetrics lib model X y cv ms r = .ok (pairs, r') →
      pairs.map (fun p => p.1) = ms := by
  intro ms
  induction ms with
  | nil =>
    intro r pairs r' h
    simp only [runMetrics] at h
    obtain ⟨h1, _⟩ := Prod.mk.injEq .. ▸ Except.ok.inj h
    subst h1
    rfl
  | cons m ms ih =>
    intro r pairs r' h
    simp only [runMetrics] at h
    cases hc : lib.cross_val_score r model X y cv m with
    | error e => rw [hc] at h; simp at h
    | ok sr =>
      obtain ⟨s, r1⟩ := sr
      rw [hc] at h
      dsimp only at h
      cases hrec : runMetrics lib model X y cv ms r1 with
      | error e => rw [hrec] at h; simp at h
      | ok pr =>
        obtain ⟨rest, r2⟩ := pr
        rw [hrec] at h
        dsimp only at h
        obtain ⟨h1, _⟩ := Prod.mk.injEq .. ▸ Except.ok.inj h
        subst h1
        simpa using ih r1 rest r2 hrec

/-- If every `cross_val_score` call returns `cv` scores, every score list
accumulated by the metric loop has length `cv`. -/
theorem runMetrics_lengths (lib : Lib M F L S) (model : M) (X : F) (y : L) (cv : Nat)
    (hlib : ∀ (r : Nat) (m : String) (s : List S) (r' : Nat),
      lib.cross_val_score r model X y cv m = .ok (s, r') → s.length = cv) :
    ∀ (ms : List String) (r : Nat) (pairs : List (String × List S)) (r' : Nat),
      runMetrics lib model X y cv ms r = .ok (pairs, r') →
      ∀ p ∈ pairs, p.2.length = cv := by
  intro ms
  induction ms with
  | nil =>
    intro r pairs r' h p hp
    simp only [runMetrics] at h
    obtain ⟨h1, _⟩ := Prod.mk.injEq .. ▸ Except.ok.inj h
    subst h1
    cases hp
  | cons m ms ih =>
    intro r pairs r' h p hp
    simp only [runMetrics] at h
    cases hc : lib.cross_val_score r model X y cv m with
    | error e => rw [hc] at h; simp at h
    | ok sr =>
      obtain ⟨s, r1⟩ := sr
      rw [hc] at h
      dsimp only at h
      cases hrec : runMetrics lib model X y cv ms r1 with
      | error e => rw [hrec] at h; simp at h
      | ok pr =>
        obtain ⟨rest, r2⟩ := pr
        rw [hrec] at h
        dsimp only at h
        obtain ⟨h1, _⟩ := Prod.mk.injEq .. ▸ Except.ok.inj h
        subst h1
        rw [List.mem_cons] at hp
        rcases hp with hp | hp
        · subst hp; exact hlib r m s r1 hc
        · exact ih r1 rest r2 hrec p hp

/-- The default of `getLastD` on a non-empty list of lists that all have
length `n` has length `n`. -/
theorem length_getLastD {α : Type} (ls : List (List α)) (n : Nat)
    (h : ∀ l ∈ ls, l.length = n) (hne : ls ≠ []) : (ls.getLastD []).length = n := by
  induction ls with
  | nil => cases hne rfl
  | cons a as ih =>
    cases as with
    | nil => simpa using h a (by simp)
    | cons b bs =>
      rw [List.getLastD_cons]
      exact ih (fun l hl => h l (List.mem_cons_of_mem a hl)) (by simp)

/-- If the calls for a prefix of the metric list all succeed and the
next call raises `e`, the whole metric loop returns that same `e`:
the first raising call aborts the loop with its error unchanged. -/
theorem runMetrics_append_error (lib : Lib M F L S) (model : M) (X : F) (y : L) (cv : Nat) :
    ∀ (ms₁ : List String) (r : Nat) (pairs : List (String × List S)) (r₁ : Nat)
      (m : String) (ms₂ : List String) (e : String),
    runMetrics lib model X y cv ms₁ r = .ok (pairs, r₁) →
    lib.cross_val_score r₁ model X y cv m = .error e →
    runMetrics lib model X y cv (ms₁ ++ m :: ms₂) r = .error e := by
  intro ms₁
  induction ms₁ with
  | nil =>
    intro r pairs r₁ m ms₂ e h hm
    simp only [runMetrics] at h
    obtain ⟨_, h2⟩ := Prod.mk.injEq .. ▸ Except.ok.inj h
    subst h2
    simp only [List.nil_append, runMetrics]
    rw [hm]
  | cons a as ih =>
    intro r pairs r₁ m ms₂ e h hm
    simp only [runMetrics] at h
    cases hc : lib.cross_val_score r model X y cv a with
    | error e2 => rw [hc] at h; simp at h
    | ok sr =>
      obtain ⟨s, r2⟩ := sr
      rw [hc] at h
      dsimp only at h
      cases hrec : runMetrics lib model X y cv as r2 with
      | error e2 => rw [hrec] at h; simp at h
      | ok pr =>
        obtain ⟨rest, r3⟩ := pr
        rw [hrec] at h
        dsimp only at h
        obtain ⟨_, h3⟩ := Prod.mk.injEq .. ▸ Except.ok.inj h
        subst h3
        simp only [List.cons_append, runMetrics]
        rw [hc]
        dsimp only
        simp only [List.append_eq]
        rw [ih r2 rest r3 m ms₂ e hrec hm]

/-- If splitter-based cross-validation succeeds for every model of a
prefix of the model list and raises `e` on the next model, the whole
box-plot loop returns that same `e`. -/
theorem boxLoop_append_error (lib : Lib M F L S) (X : F) (y : L) (scoring : String) :
    ∀ (L₁ : List (String × M)) (name : String) (mdl : M) (L₂ : List (String × M)) (e : String),
    (∀ q ∈ L₁, ∃ s, lib.cross_val_score_split q.2 X y ⟨10, 5, 100⟩ scoring = .ok s) →
    lib.cross_val_score_split mdl X y ⟨10, 5, 100⟩ scoring = .error e →
    boxLoop lib X y scoring (L₁ ++ (name, mdl) :: L₂) = .error e := by
  intro L₁
  induction L₁ with
  | nil =>
    intro name mdl L₂ e hpre hf
    simp only [List.nil_append, boxLoop]
    rw [hf]
  | cons q qs ih =>
    intro name mdl L₂ e hpre hf
    obtain ⟨n1, m1⟩ := q
    obtain ⟨s, hs⟩ := hpre (n1, m1) (by simp)
    simp only [List.cons_append, boxLoop]
    rw [hs]
    dsimp only
    simp only [List.append_eq]
    rw [ih name mdl L₂ e (fun q hq => hpre q (List.mem_cons_of_mem _ hq)) hf]

/-- Claim C1: for a fixed deterministic model and dataset the reported
scores are reproducible.  `metric_evaluation` returns the same value for
any two incoming NumPy global random states, because it starts by seeding
the state to 100; and two successive invocations of `plot_box_plot` with
the same written arguments — the second one seeing the `models` list as
the first call left it — report equal per-model cross-validation results,
because `RepeatedKFold(random_state=100)` fixes the splits. -/
theorem metric_evaluation_and_plot_box_plot_deterministic
    {M F L S : Type} (lib : Lib M F L S) (model : M) (X : F) (y : L)
    (cv : Nat) (mn sc : String) (prr plr : Bool) (rng1 rng2 : Nat)
    (models : List (String × M)) :
    metric_evaluation lib model X y cv mn prr plr rng1
      = metric_evaluation lib model X y cv mn prr plr rng2
    ∧ (plot_box_plot lib model X y mn sc (modelsAfterCall model mn models)).map
        (fun o => o.results)
      = (plot_box_plot lib model X y mn sc models).map (fun o => o.results) := by
  constructor
  · rfl
  · have hpb : plot_box_plot (S := S) lib model X y mn sc (modelsAfterCall model mn models)
        = plot_box_plot lib model X y mn sc models := by
      simp only [plot_box_plot, modelsAfterCall_idem]
    rw [hpb]

/-- Claim C2: the DataFrame returned by `metric_evaluation` has exactly
five rows, indexed by the five metric names in the order of
`metrics_list`. -/
theorem metric_evaluation_five_metric_rows
    {M F L S : Type} (lib : Lib M F L S) (model : M) (X : F) (y : L)
    (cv : Nat) (mn : String) (prr plr : Bool) (rng : Nat) :
    (metric_evaluation lib model X y cv mn prr plr rng).map
        (fun o => (o.df.rowIndex, o.df.data.length))
      = (metric_evaluation lib model X y cv mn prr plr rng).map
          (fun _ => (["accuracy", "precision_weighted", "recall_weighted",
                      "f1_weighted", "roc_auc"], 5)) := by
  unfold metric_evaluation
  cases h : runMetrics lib model X y cv metrics_list (lib.seed 100) with
  | error e => rfl
  | ok pr2 =>
    obtain ⟨pairs, r1⟩ := pr2
    have hfst := runMetrics_map_fst lib model X y cv metrics_list (lib.seed 100) pairs r1 h
    have hlen : pairs.length = 5 := by
      have h5 := congrArg List.length hfst
      simpa [metrics_list] using h5
    by_cases hall : allSameLength (pairs.map fun p => p.2)
    · simp only [hall, if_true, Except.map, Except.ok.injEq, Prod.mk.injEq]
      refine ⟨?_, ?_⟩
      · simpa [Function.comp, metrics_list] using hfst
      · simpa using hlen
    · simp [hall, Except.map]

/-- Claim C10: the returned DataFrame does not depend on the
`print_results` and `plot_results` flags. -/
theorem metric_evaluation_df_independent_of_flags
    {M F L S : Type} (lib : Lib M F L S) (model : M) (X : F) (y : L)
    (cv : Nat) (mn : String) (p1 q1 p2 q2 : Bool) (rng : Nat) :
    (metric_evaluation lib model X y cv mn p1 q1 rng).map (fun o => o.df)
      = (metric_evaluation lib model X y cv mn p2 q2 rng).map (fun o => o.df) := by
  unfold metric_evaluation
  cases h : runMetrics lib model X y cv metrics_list (lib.seed 100) with
  | error e => rfl
  | ok pr2 =>
    obtain ⟨pairs, r1⟩ := pr2
    by_cases hall : allSameLength (pairs.map fun p => p.2) <;> simp [hall, Except.map]

/-- Claim C6 counterexample: with `print_results=False` (and
`plot_results=False`) `metric_evaluation` still prints — the completion
line on line 86 is unconditional — so the printed output is not empty. -/
theorem metric_evaluation_prints_even_when_disabled :
    (metric_evaluation toyLib () () () 5 "Model" false false 0).map (fun o => o.printed)
      ≠ .ok ([] : List String) := by
  have h1 : (metric_evaluation toyLib () () () 5 "Model" false false 0).map (fun o => o.printed)
      = .ok ["Model Model evaluation complete."] := rfl
  rw [h1]
  simp

/-- Claim C6 as amended: when `print_results` is false the only printed
line is the unconditional completion message (no metric results are
printed), and when `plot_results` is false no plot is produced. -/
theorem metric_evaluation_quiet_flags
    {M F L S : Type} (lib : Lib M F L S) (model : M) (X : F) (y : L)
    (cv : Nat) (mn : String) (prr plr : Bool) (rng : Nat) :
    ((metric_evaluation lib model X y cv mn false plr rng).map (fun o => o.printed)
      = (metric_evaluation lib model X y cv mn false plr rng).map
          (fun _ => [mn ++ " Model evaluation complete."]))
    ∧ ((metric_evaluation lib model X y cv mn prr false rng).map (fun o => o.plots)
      = (metric_evaluation lib model X y cv mn prr false rng).map
          (fun _ => ([] : List String))) := by
  unfold metric_evaluation
  cases h : runMetrics lib model X y cv metrics_list (lib.seed 100) with
  | error e => exact ⟨rfl, rfl⟩
  | ok pr2 =>
    obtain ⟨pairs, r1⟩ := pr2
    by_cases hall : allSameLength (pairs.map fun p => p.2) <;> simp [hall, Except.map]

/-- Claim C3, evaluated at the failing input `scoring="accuracy"`: the
metric actually used for scoring and shown in the heading is
`recall_weighted`, not the metric named by the argument — line 145
rebinds the `scoring` parameter before it is ever read. -/
theorem plot_box_plot_ignores_scoring_argument :
    ((plot_box_plot toyLib () () () "M" "accuracy" []).map
        (fun o => (o.scoring_used, o.printed.headD "")))
      = .ok ("recall_weighted", "Model Evaluation - Recall weighted")
    ∧ "recall_weighted" ≠ "accuracy" := by
  refine ⟨?_, by decide⟩
  rfl

/-- Claim C4 counterexample: `plot_box_plot` called with an empty
`models` list mutates it — after the call the list bound to `models` is
`[(model_name, model)]`, not `[]`. -/
theorem plot_box_plot_mutates_empty_models_list :
    (plot_box_plot toyLib () () () "M" "recall_weighted" []).map (fun o => o.models)
      ≠ .ok ([] : List (String × Unit)) := by
  have h1 : (plot_box_plot toyLib () () () "M" "recall_weighted" []).map (fun o => o.models)
      = .ok [("M", ())] := rfl
  rw [h1]
  simp

/-- Claim C4 as amended: `plot_box_plot` appends `(model_name, model)` to
the list bound to `models` exactly when that list is empty (so an empty
caller-owned list IS mutated, and the shared default list keeps state
between calls), a non-empty list is left unchanged, and a second call
receiving the list as the first call left it evaluates the same
collection of models. -/
theorem plot_box_plot_models_mutation
    {M F L S : Type} (lib : Lib M F L S) (model : M) (X : F) (y : L)
    (mn sc : String) (models : List (String × M)) :
    ((plot_box_plot lib model X y mn sc models).map (fun o => o.models)
      = (plot_box_plot lib model X y mn sc models).map
          (fun _ => if models.isEmpty then [(mn, model)] else models))
    ∧ ((plot_box_plot lib model X y mn sc (modelsAfterCall model mn models)).map
        (fun o => (o.models, o.names))
      = (plot_box_plot lib model X y mn sc models).map (fun o => (o.models, o.names))) := by
  constructor
  · have hm : modelsAfterCall model mn models
        = if models.isEmpty then [(mn, model)] else models := by
      unfold modelsAfterCall
      by_cases h : models.isEmpty
      · rw [List.isEmpty_iff.mp h]; simp
      · simp [h]
    unfold plot_box_plot
    cases hb : boxLoop lib X y "recall_weighted" (modelsAfterCall model mn models) with
    | error e => rfl
    | ok t =>
      obtain ⟨rs, ns, ps⟩ := t
      simp [Except.map, hm]
  · have hpb : plot_box_plot (S := S) lib model X y mn sc (modelsAfterCall model mn models)
        = plot_box_plot lib model X y mn sc models := by
      simp only [plot_box_plot, modelsAfterCall_idem]
    rw [hpb]

/-- Claim C5: with an empty `models` list, `plot_box_plot` evaluates
exactly one model, the pair `(model_name, model)`: one
`cross_val_score` call, one name, one result list. -/
theorem plot_box_plot_empty_models_single
    {M F L S : Type} (lib : Lib M F L S) (model : M) (X : F) (y : L) (mn sc : String) :
    (plot_box_plot lib model X y mn sc []).map (fun o => (o.names, o.results, o.models))
      = (lib.cross_val_score_split model X y ⟨10, 5, 100⟩ "recall_weighted").map
          (fun s => ([mn], [s], [(mn, model)])) := by
  unfold plot_box_plot
  have hm : modelsAfterCall (M := M) model mn [] = [(mn, model)] := by
    simp [modelsAfterCall]
  rw [hm]
  cases hc : lib.cross_val_score_split model X y ⟨10, 5, 100⟩ "recall_weighted" with
  | error e => simp [boxLoop, hc, Except.map]
  | ok s => simp [boxLoop, hc, Except.map]

/-- Claim C9: when `cross_val_score` returns `cv` scores per call (its
library contract for an integer fold count `cv >= 2`), the returned
DataFrame has exactly `cv` columns labelled `Cross Val 1` through
`Cross Val cv` in increasing order. -/
theorem metric_evaluation_cv_columns
    {M F L S : Type} (lib : Lib M F L S) (model : M) (X : F) (y : L)
    (cv : Nat) (mn : String) (prr plr : Bool) (rng : Nat)
    (hcv : 2 ≤ cv)
    (hlib : ∀ (r : Nat) (m : String) (s : List S) (r' : Nat),
      lib.cross_val_score r model X y cv m = .ok (s, r') → s.length = cv) :
    (metric_evaluation lib model X y cv mn prr plr rng).map (fun o => o.df.columns)
      = (metric_evaluation lib model X y cv mn prr plr rng).map
          (fun _ => (List.range cv).map (fun n => "Cross Val " ++ toString (n + 1))) := by
  unfold metric_evaluation
  cases h : runMetrics lib model X y cv metrics_list (lib.seed 100) with
  | error e => rfl
  | ok pr2 =>
    obtain ⟨pairs, r1⟩ := pr2
    have hfst := runMetrics_map_fst lib model X y cv metrics_list (lib.seed 100) pairs r1 h
    have hlens := runMetrics_lengths lib model X y cv hlib metrics_list (lib.seed 100) pairs r1 h
    have hne : pairs ≠ [] := by
      intro hnil
      rw [hnil] at hfst
      simp [metrics_list] at hfst
    have hlast : ((pairs.map (fun p => p.2)).getLastD []).length = cv := by
      apply length_getLastD
      · intro l hl
        obtain ⟨p, hp, hpl⟩ := List.mem_map.mp hl
        exact hpl ▸ hlens p hp
      · simpa using hne
    by_cases hall : allSameLength (pairs.map fun p => p.2)
    · simp only [hall, if_true, Except.map, Except.ok.injEq]
      rw [hlast]
    · simp [hall, Except.map]

/-- Witness for C9 at `cv = 3` with the concrete toy library. -/
theorem metric_evaluation_cv_columns_w :
    2 ≤ 3
    ∧ (metric_evaluation toyLib () () () 3 "M" true true 0).map (fun o => o.df.columns)
      = (metric_evaluation toyLib () () () 3 "M" true true 0).map
          (fun _ => (List.range 3).map (fun n => "Cross Val " ++ toString (n + 1))) :=
  ⟨by decide,
   metric_evaluation_cv_columns toyLib () () () 3 "M" true true 0 (by decide)
     (fun r m s r' h => by
        simp only [toyLib, Except.ok.injEq, Prod.mk.injEq] at h
        obtain ⟨h2, _⟩ := h
        subst h2
        decide)⟩

/-- Claim C7: `full_model_evaluation` invokes `plot_learning_curves`,
`plot_box_plot` and `metric_evaluation`, once each, in that order,
passing each the model and data it received (with the defaults
`scoring="recall_weighted"`, `models=[]`, `cv=5` and both flags true);
its output is exactly the aggregation of their outputs. -/
theorem full_model_evaluation_calls_three_helpers
    {M F L S : Type} (lib : Lib M F L S) (model : M) (X : F) (y : L)
    (mn : String) (rng : Nat) (lc : LCOut S) (pb : PBOut M S) (me : MEOut S)
    (h1 : plot_learning_curves lib model X y = .ok lc)
    (h2 : plot_box_plot lib model X y mn "recall_weighted" [] = .ok pb)
    (h3 : metric_evaluation lib model X y 5 mn true true rng = .ok me) :
    full_model_evaluation lib model X y (some mn) rng
      = .ok { heading := mn ++ " Learning Curve", lc := lc, pb := pb, me := me } := by
  unfold full_model_evaluation
  simp [Option.getD, h1, h2, h3]

/-- Witness for C7: the three helpers succeed on the toy library and
`full_model_evaluation` returns exactly their aggregated outputs. -/
theorem full_model_evaluation_calls_three_helpers_w :
    full_model_evaluation toyLib () () () (some "M") 0
      = .ok { heading := "M Learning Curve", lc := lcVal, pb := pbVal, me := meVal } :=
  full_model_evaluation_calls_three_helpers toyLib () () () "M" 0 lcVal pbVal meVal
    rfl rfl rfl

/-- Claim C8: no function catches or transforms errors.  Whatever
underlying library call raises first, its error propagates unchanged to
the caller: out of `metric_evaluation` when the call for any of the five
metrics raises (all earlier metric calls having succeeded); out of
`plot_learning_curves` when its one `learning_curve` call raises; out of
`plot_box_plot` when the call for any model in the (default-completed)
list raises (all earlier models having succeeded); and out of
`full_model_evaluation` when any of its three stages raises (all earlier
stages having succeeded). -/
theorem library_errors_propagate_unhandled
    {M F L S : Type} (lib : Lib M F L S) (model : M) (X : F) (y : L)
    (cv : Nat) (mn sc : String) (prr plr : Bool) (rng : Nat) (e : String)
    (models : List (String × M)) :
    (∀ (ms₁ : List String) (m : String) (ms₂ : List String)
       (pairs : List (String × List S)) (r₁ : Nat),
      metrics_list = ms₁ ++ m :: ms₂ →
      runMetrics lib model X y cv ms₁ (lib.seed 100) = .ok (pairs, r₁) →
      lib.cross_val_score r₁ model X y cv m = .error e →
      metric_evaluation lib model X y cv mn prr plr rng = .error e)
    ∧ (lib.learning_curve model X y 10 "recall_weighted" 100 = .error e →
      plot_learning_curves lib model X y = .error e)
    ∧ (∀ (L₁ : List (String × M)) (name : String) (mdl : M) (L₂ : List (String × M)),
      modelsAfterCall model mn models = L₁ ++ (name, mdl) :: L₂ →
      (∀ q ∈ L₁, ∃ s, lib.cross_val_score_split q.2 X y ⟨10, 5, 100⟩ "recall_weighted" = .ok s) →
      lib.cross_val_score_split mdl X y ⟨10, 5, 100⟩ "recall_weighted" = .error e →
      plot_box_plot lib model X y mn sc models = .error e)
    ∧ ((plot_learning_curves lib model X y = .error e →
        full_model_evaluation lib model X y (some mn) rng = .error e)
      ∧ (∀ lc : LCOut S,
          plot_learning_curves lib model X y = .ok lc →
          plot_box_plot lib model X y mn "recall_weighted" [] = .error e →
          full_model_evaluation lib model X y (some mn) rng = .error e)
      ∧ (∀ (lc : LCOut S) (pb : PBOut M S),
          plot_learning_curves lib model X y = .ok lc →
          plot_box_plot lib model X y mn "recall_weighted" [] = .ok pb →
          metric_evaluation lib model X y 5 mn true true rng = .error e →
          full_model_evaluation lib model X y (some mn) rng = .error e)) := by
  refine ⟨fun ms₁ m ms₂ pairs r₁ hsplit hpre hm => ?_,
          fun h => ?_,
          fun L₁ name mdl L₂ hsplit hpre hf => ?_,
          fun h => ?_,
          fun lc h1 h2 => ?_,
          fun lc pb h1 h2 h3 => ?_⟩
  · unfold metric_evaluation
    rw [hsplit, runMetrics_append_error lib model X y cv ms₁ (lib.seed 100)
          pairs r₁ m ms₂ e hpre hm]
  · unfold plot_learning_curves
    rw [h]
  · unfold plot_box_plot
    rw [hsplit, boxLoop_append_error lib X y "recall_weighted" L₁ name mdl L₂ e hpre hf]
  · unfold full_model_evaluation
    rw [h]
  · unfold full_model_evaluation
    simp [Option.getD, h1, h2]
  · unfold full_model_evaluation
    simp [Option.getD, h1, h2, h3]

/-- Witness for C8 on concrete libraries failing at various points: the
fifth metric of `metric_evaluation`, the `learning_curve` call, the
second model of `plot_box_plot`, and each of the three stages of
`full_model_evaluation`; the error comes out unchanged every time. -/
theorem library_errors_propagate_unhandled_w :
    metric_evaluation rocFailLib () () () 5 "M" true true 0 = .error "boom"
    ∧ plot_learning_curves failLib () () () = .error "boom"
    ∧ plot_box_plot boolFailLib false () () "M" "accuracy" [("A", false), ("B", true)]
        = .error "boom"
    ∧ full_model_evaluation failLib () () () (some "M") 0 = .error "boom"
    ∧ full_model_evaluation splitFailLib () () () (some "M") 0 = .error "boom"
    ∧ full_model_evaluation cvsFailLib () () () (some "M") 0 = .error "boom" :=
  ⟨(library_errors_propagate_unhandled rocFailLib () () () 5 "M" "x" true true 0
      "boom" []).1
      ["accuracy", "precision_weighted", "recall_weighted", "f1_weighted"] "roc_auc" []
      [("accuracy", List.replicate 5 0), ("precision_weighted", List.replicate 5 0),
       ("recall_weighted", List.replicate 5 0), ("f1_weighted", List.replicate 5 0)] 104
      rfl rfl rfl,
   (library_errors_propagate_unhandled failLib () () () 5 "M" "x" true true 0
      "boom" []).2.1 rfl,
   (library_errors_propagate_unhandled boolFailLib false () () 5 "M" "accuracy"
      true true 0 "boom" [("A", false), ("B", true)]).2.2.1
      [("A", false)] "B" true [] rfl
      (fun q hq => by
        simp only [List.mem_singleton] at hq
        subst hq
        exact ⟨List.replicate 50 0, rfl⟩)
      rfl,
   (library_errors_propagate_unhandled failLib () () () 5 "M" "x" true true 0
      "boom" []).2.2.2.1 rfl,
   (library_errors_propagate_unhandled splitFailLib () () () 5 "M" "x" true true 0
      "boom" []).2.2.2.2.1 lcVal rfl rfl,
   (library_errors_propagate_unhandled cvsFailLib () () () 5 "M" "x" true true 0
      "boom" []).2.2.2.2.2 lcVal pbVal rfl rfl rfl⟩

end HelperFunctions
